import Mathlib

/-!
Verification of the `statx-sys` binding: the `repr(C)` layouts of
`struct statx_timestamp` and `struct statx`, the flag/mask constants, and the
`statx()` syscall wrapper, shallowly embedded from `src/lib.rs`.
-/

namespace StatxSys

/-- Round `off` up to the least multiple of `a` that is not below it
(the C / `repr(C)` alignment rule; all alignments used here are positive). -/
def alignUp (off a : Nat) : Nat := ((off + a - 1) / a) * a

/-- A type as far as `repr(C)` layout is concerned: its size in bytes, its
alignment in bytes, and whether it is a signed integer type. -/
structure CTy where
  size : Nat
  align : Nat
  signed : Bool
deriving DecidableEq

/-- `__u16` on 64-bit Linux: 2 bytes, unsigned. -/
def ty_u16 : CTy := ⟨2, 2, false⟩

/-- `__u32` on 64-bit Linux: 4 bytes, unsigned. -/
def ty_u32 : CTy := ⟨4, 4, false⟩

/-- `__u64` on 64-bit Linux: 8 bytes, unsigned. -/
def ty_u64 : CTy := ⟨8, 8, false⟩

/-- `__s32` on 64-bit Linux: 4 bytes, signed. -/
def ty_s32 : CTy := ⟨4, 4, true⟩

/-- `i64`: 8 bytes, signed. -/
def ty_i64 : CTy := ⟨8, 8, true⟩

/-- A fixed-size array `[t; n]`: element size times length, element alignment. -/
def ty_array (t : CTy) (n : Nat) : CTy := ⟨t.size * n, t.align, false⟩

/-- Offsets of the fields of a `repr(C)` struct given in declaration order:
each field is placed at the next offset aligned for its type. -/
def fieldOffsets : Nat → List (String × CTy) → List (String × Nat)
  | _, [] => []
  | off, (n, t) :: rest =>
      (n, alignUp off t.align) :: fieldOffsets (alignUp off t.align + t.size) rest

/-- Offset just past the last field of a `repr(C)` struct. -/
def structEnd : Nat → List (String × CTy) → Nat
  | off, [] => off
  | off, (_, t) :: rest => structEnd (alignUp off t.align + t.size) rest

/-- Alignment of a `repr(C)` struct: the maximum alignment of its fields. -/
def structAlign (fs : List (String × CTy)) : Nat :=
  fs.foldr (fun f a => max f.2.align a) 1

/-- Size of a `repr(C)` struct: the end of the last field rounded up to the
struct alignment (tail padding). -/
def structSize (fs : List (String × CTy)) : Nat :=
  alignUp (structEnd 0 fs) (structAlign fs)

/-- A `repr(C)` struct used as a field type of another struct: it contributes
its own size and alignment. -/
def structTy (fs : List (String × CTy)) : CTy :=
  ⟨structSize fs, structAlign fs, false⟩

/-- Byte offset of the named field inside a `repr(C)` struct. -/
def offsetOf (fs : List (String × CTy)) (name : String) : Option Nat :=
  (fieldOffsets 0 fs).lookup name

/-- Declared type of the named field of a struct. -/
def fieldTy (fs : List (String × CTy)) (name : String) : Option CTy :=
  fs.lookup name

/-- Least value representable in a C integer type. -/
def CTy.minVal (t : CTy) : Int :=
  if t.signed then -(2 ^ (8 * t.size - 1)) else 0

/-- Greatest value representable in a C integer type. -/
def CTy.maxVal (t : CTy) : Int :=
  if t.signed then 2 ^ (8 * t.size - 1) - 1 else 2 ^ (8 * t.size) - 1

/-- Fields of `struct statx_timestamp`, in declaration order
(`tv_sec : i64`, `tc_nsec : __u32`, `__reserved : __s32`). -/
def statx_timestamp_fields : List (String × CTy) :=
  [("tv_sec", ty_i64), ("tc_nsec", ty_u32), ("__reserved", ty_s32)]

/-- `struct statx_timestamp` viewed as a field type. -/
def statx_timestamp_ty : CTy := structTy statx_timestamp_fields

/-- Fields of `struct statx`, in declaration order, exactly as in the source. -/
def statx_fields : List (String × CTy) :=
  [("stx_mask", ty_u32),
   ("stx_blksize", ty_u32),
   ("stx_attributes", ty_u64),
   ("stx_nlink", ty_u32),
   ("stx_uid", ty_u32),
   ("stx_gid", ty_u32),
   ("stx_mode", ty_u16),
   ("__spare0", ty_array ty_u16 1),
   ("stx_ino", ty_u64),
   ("stx_size", ty_u64),
   ("stx_blocks", ty_u64),
   ("stx_attributes_mask", ty_u64),
   ("stx_atime", statx_timestamp_ty),
   ("stx_btime", statx_timestamp_ty),
   ("stx_ctime", statx_timestamp_ty),
   ("stx_mtime", statx_timestamp_ty),
   ("stx_rdev_major", ty_u32),
   ("stx_rdev_minor", ty_u32),
   ("stx_dev_major", ty_u32),
   ("stx_dev_minor", ty_u32),
   ("__spare2", ty_array ty_u64 14)]

/-- `pub const SYS_statx: c_long = 332;` — defined unconditionally, with no
`cfg` attribute keyed by target architecture. -/
def SYS_statx : Int := 332

/-- Target architectures a build could aim at. -/
inductive Arch where
  | x86_64
  | aarch64
  | powerpc64
  | unrecognized
deriving DecidableEq

/-- What the crate's build produces for `SYS_statx` on each target
architecture: the source has no `cfg`/`compile_error!`, so every architecture
gets the same constant `332` and no build fails (`none` would model a
build-time failure). -/
def SYS_statx_on : Arch → Option Int := fun _ => some SYS_statx

-- Flag constants, values copied from the source.

def AT_STATX_SYNC_AS_STAT : Nat := 0x00000000

def AT_STATX_FORCE_SYNC : Nat := 0x00002000

def AT_STATX_DONT_SYNC : Nat := 0x00004000

def STATX_TYPE : Nat := 0x00000001

def STATX_MODE : Nat := 0x00000002

def STATX_NLINK : Nat := 0x00000004

def STATX_UID : Nat := 0x00000008

def STATX_GID : Nat := 0x00000010

def STATX_ATIME : Nat := 0x00000020

def STATX_MTIME : Nat := 0x00000040

def STATX_CTIME : Nat := 0x00000080

def STATX_INO : Nat := 0x00000100

def STATX_SIZE : Nat := 0x00000200

def STATX_BLOCKS : Nat := 0x00000400

def STATX_BASIC_STATS : Nat := 0x000007ff

def STATX_BTIME : Nat := 0x00000800

def STATX_ALL : Nat := 0x00000fff

def STATX__RESERVED : Nat := 0x80000000

def STATX_ATTR_COMPRESSED : Nat := 0x00000004

def STATX_ATTR_IMMUTABLE : Nat := 0x00000010

def STATX_ATTR_APPEND : Nat := 0x00000020

def STATX_ATTR_NODUMP : Nat := 0x00000040

def STATX_ATTR_ENCRYPTED : Nat := 0x00000800

def STATX_ATTR_AUTOMOUNT : Nat := 0x00001000

/-- Rust's `as c_int` on a `c_long` value: reduce into the signed 32-bit
range by wrapping modulo `2^32`. -/
def c_int_of_c_long (x : Int) : Int := (x + 2 ^ 31) % 2 ^ 32 - 2 ^ 31

/-- The `statx()` wrapper: `syscall(SYS_statx, dirfd, pathname, flags, mask,
statxbuf) as c_int`. The kernel is an uninterpreted 6-argument function from
the syscall number and the five forwarded arguments (pointers modelled as
addresses) to its `c_long` return value. -/
def statx_call (kernel : Int → Int → Int → Int → Int → Int → Int)
    (dirfd pathname flags mask statxbuf : Int) : Int :=
  c_int_of_c_long (kernel SYS_statx dirfd pathname flags mask statxbuf)

/-- Claim C1: the `repr(C)` layout of `struct statx` has total size exactly
256 bytes (0x100). -/
theorem C1_statx_size_256 : structSize statx_fields = 256 := by decide

/-- Claim C2: in `struct statx`, `stx_mask` sits at byte offset 0, `stx_nlink`
at 0x10, `stx_ino` at 0x20, `stx_atime` at 0x40, `stx_rdev_major` at 0x80 and
`__spare2` at 0x90. -/
theorem C2_statx_field_offsets :
    offsetOf statx_fields "stx_mask" = some 0x00 ∧
    offsetOf statx_fields "stx_nlink" = some 0x10 ∧
    offsetOf statx_fields "stx_ino" = some 0x20 ∧
    offsetOf statx_fields "stx_atime" = some 0x40 ∧
    offsetOf statx_fields "stx_rdev_major" = some 0x80 ∧
    offsetOf statx_fields "__spare2" = some 0x90 := by decide

/-- Claim C3 counterexample: with a kernel response of `2^31` — a valid
`c_long` value outside the `c_int` range — the wrapper's `as c_int` cast
returns `-2^31`, not the kernel's raw return code. -/
theorem C3_cast_not_identity :
    statx_call (fun _ _ _ _ _ _ => 2 ^ 31) 0 0 0 0 0 = -(2 ^ 31) ∧
    (-(2 ^ 31) : Int) ≠ 2 ^ 31 := by decide

/-- Claim C3 (amended): the wrapper applies the kernel entry point selected by
`SYS_statx` to exactly the five arguments, unmodified and in order, and
returns the kernel's `c_long` return code cast to `c_int` (wrapped into the
signed 32-bit range); whenever that code already lies in the `c_int` range —
as every real `statx` return does — it is returned unchanged. -/
theorem C3_statx_forwards (kernel : Int → Int → Int → Int → Int → Int → Int)
    (dirfd pathname flags mask statxbuf : Int) :
    statx_call kernel dirfd pathname flags mask statxbuf
      = c_int_of_c_long (kernel SYS_statx dirfd pathname flags mask statxbuf) ∧
    (-(2 ^ 31) ≤ kernel SYS_statx dirfd pathname flags mask statxbuf →
      kernel SYS_statx dirfd pathname flags mask statxbuf < 2 ^ 31 →
      statx_call kernel dirfd pathname flags mask statxbuf
        = kernel SYS_statx dirfd pathname flags mask statxbuf) := by
  refine ⟨rfl, fun h1 h2 => ?_⟩
  unfold statx_call c_int_of_c_long
  omega

/-- Claim C3 witness: for a kernel that answers `-2` (in the `c_int` range),
the wrapper returns `-2` unchanged. -/
theorem C3_statx_forwards_witness :
    statx_call (fun _ _ _ _ _ _ => -2) 3 4 5 6 7 = -2 :=
  (C3_statx_forwards (fun _ _ _ _ _ _ => -2) 3 4 5 6 7).2 (by decide) (by decide)

/-- Claim C4 counterexample: on an unrecognized target architecture the crate
still defines `SYS_statx` as `332` (`some 332`), rather than failing the
build (`none`): the constant carries no `cfg` selection at all. -/
theorem C4_no_build_failure :
    SYS_statx_on Arch.unrecognized = some 332 ∧
    SYS_statx_on Arch.unrecognized ≠ none := by decide

/-- Claim C4 (amended): `SYS_statx` is the single unconditional compile-time
constant 332 (the x86_64 syscall number) on every target architecture; the
source performs no per-architecture selection and triggers no build-time
failure on unrecognized architectures. -/
theorem C4_sys_statx_unconditional (a : Arch) : SYS_statx_on a = some 332 := rfl

/-- Claim C5: the sync flags, the request/result mask bits and the
file-attribute flags are pairwise distinct within their groups, and
`STATX_BASIC_STATS` and `STATX_ALL` equal the bitwise unions of their named
constituents. -/
theorem C5_constant_algebra :
    ([AT_STATX_SYNC_AS_STAT, AT_STATX_FORCE_SYNC, AT_STATX_DONT_SYNC]).Nodup ∧
    ([STATX_TYPE, STATX_MODE, STATX_NLINK, STATX_UID, STATX_GID, STATX_ATIME,
      STATX_MTIME, STATX_CTIME, STATX_INO, STATX_SIZE, STATX_BLOCKS,
      STATX_BASIC_STATS, STATX_BTIME, STATX_ALL, STATX__RESERVED]).Nodup ∧
    ([STATX_ATTR_COMPRESSED, STATX_ATTR_IMMUTABLE, STATX_ATTR_APPEND,
      STATX_ATTR_NODUMP, STATX_ATTR_ENCRYPTED, STATX_ATTR_AUTOMOUNT]).Nodup ∧
    STATX_BASIC_STATS =
      (STATX_TYPE ||| STATX_MODE ||| STATX_NLINK ||| STATX_UID ||| STATX_GID |||
       STATX_ATIME ||| STATX_MTIME ||| STATX_CTIME ||| STATX_INO |||
       STATX_SIZE ||| STATX_BLOCKS) ∧
    STATX_ALL = STATX_BASIC_STATS ||| STATX_BTIME := by decide

/-- Claim C6: `struct statx_timestamp` is exactly 16 bytes, its fields sit at
offsets 0, 8 and 12, and the end of the layout equals the plain sum of the
field sizes: there is no padding beyond the reserved field itself. -/
theorem C6_timestamp_layout :
    structSize statx_timestamp_fields = 16 ∧
    fieldOffsets 0 statx_timestamp_fields =
      [("tv_sec", 0), ("tc_nsec", 8), ("__reserved", 12)] ∧
    structEnd 0 statx_timestamp_fields =
      ty_i64.size + ty_u32.size + ty_s32.size ∧
    structSize statx_timestamp_fields = structEnd 0 statx_timestamp_fields := by
  decide

/-- Claim C7: `struct statx` embeds exactly four `statx_timestamp` fields, in
the order `stx_atime` (access), `stx_btime` (creation), `stx_ctime`
(attribute change), `stx_mtime` (data modification), each 16 bytes, at the
consecutive offsets 0x40, 0x50, 0x60, 0x70. -/
theorem C7_four_timestamps :
    (statx_fields.filter (fun f => decide (f.2 = statx_timestamp_ty))).map
        Prod.fst
      = ["stx_atime", "stx_btime", "stx_ctime", "stx_mtime"] ∧
    statx_timestamp_ty.size = 16 ∧
    offsetOf statx_fields "stx_atime" = some 0x40 ∧
    offsetOf statx_fields "stx_btime" = some 0x50 ∧
    offsetOf statx_fields "stx_ctime" = some 0x60 ∧
    offsetOf statx_fields "stx_mtime" = some 0x70 := by decide

/-- Claim C8: the seconds field `tv_sec` has a signed 64-bit type, so
pre-epoch (negative) values are representable, and the nanoseconds field
`tc_nsec` has an unsigned 32-bit type whose range contains all of
0..999,999,999 and no negative value. -/
theorem C8_timestamp_components :
    fieldTy statx_timestamp_fields "tv_sec" = some ty_i64 ∧
    ty_i64.signed = true ∧
    CTy.minVal ty_i64 < 0 ∧
    fieldTy statx_timestamp_fields "tc_nsec" = some ty_u32 ∧
    ty_u32.signed = false ∧
    CTy.minVal ty_u32 = 0 ∧
    (999999999 : Int) ≤ CTy.maxVal ty_u32 := by decide

/-- Claim C9: the wrapper is deterministic and depends on nothing but its five
arguments and the kernel's response: two invocations with equal arguments
whose kernel responses agree return equal result codes. -/
theorem C9_deterministic (k1 k2 : Int → Int → Int → Int → Int → Int → Int)
    (dirfd pathname flags mask statxbuf : Int)
    (h : k1 SYS_statx dirfd pathname flags mask statxbuf
       = k2 SYS_statx dirfd pathname flags mask statxbuf) :
    statx_call k1 dirfd pathname flags mask statxbuf
      = statx_call k2 dirfd pathname flags mask statxbuf := by
  unfold statx_call
  rw [h]

/-- Claim C9 witness: two concrete invocations with equal arguments and equal
kernel responses yield equal results. -/
theorem C9_deterministic_witness :
    statx_call (fun _ _ _ _ _ _ => 0) 1 2 3 4 5
      = statx_call (fun _ _ _ _ _ _ => 0) 1 2 3 4 5 :=
  C9_deterministic (fun _ _ _ _ _ _ => 0) (fun _ _ _ _ _ _ => 0) 1 2 3 4 5 rfl

/-- Claim C10: the special-device pair `stx_rdev_major`/`stx_rdev_minor` sits
at offsets 0x80/0x84, before the containing-device pair
`stx_dev_major`/`stx_dev_minor` at 0x88/0x8c, so the field at 0x80 is the
special device's major number. -/
theorem C10_rdev_before_dev :
    offsetOf statx_fields "stx_rdev_major" = some 0x80 ∧
    offsetOf statx_fields "stx_rdev_minor" = some 0x84 ∧
    offsetOf statx_fields "stx_dev_major" = some 0x88 ∧
    offsetOf statx_fields "stx_dev_minor" = some 0x8c := by decide

end StatxSys
